import Mathlib

/-!
Verification of the `sham` crate: mock implementations of an HTTP client
(`src/crates/sham/src/reqwest.rs`) and of `std::process::Command`
(`src/crates/sham/src/std_process.rs`).

Modelling conventions:
- HTTP status codes and bytes are `Nat`; URLs are `String`.
- Rust `Result<A, MockError>` is `Except MockError A`; the `Arc` around the
  body only shares ownership and is dropped from the model.
- A Rust panic (an `unwrap` failure, or a mockall expectation failure) is
  `none` in an `Option`-returning model function.
- URL parsing/normalisation is performed by the external `url` crate; the
  model is parametrised by an arbitrary `parse : String → Option String`
  returning the normalised serialisation, or `none` when unparseable.
- JSON deserialisation (`serde_json::from_slice::<T>`) is parametrised by an
  arbitrary `fromJson : List Nat → Option T`.
- The mockall machinery used by `create_mock_client` registers, per list
  entry, one `get` expectation with `times(1)` inside a single `Sequence`,
  in registration order.  mockall dispatches a call to the first
  unsaturated expectation whose matcher accepts the argument, and panics if
  there is none or if that expectation is not next in the sequence.  With
  every expectation `times(1)` in one sequence, the fired expectations
  always form a prefix, so a call succeeds exactly when it matches the
  expectation at index `fired`; this is how `MockClient.get` is written.
-/

--	MockError: src/crates/sham/src/reqwest.rs, struct MockError

/-- The mocked Reqwest error type: a bundle of boolean flags plus an
optional status code and an optional URL.  Field reads model the
`is_*`, `status` and `url` accessors, which are pure field reads. -/
structure MockError where
  is_body : Bool
  is_builder : Bool
  is_connect : Bool
  is_decode : Bool
  is_redirect : Bool
  is_request : Bool
  is_status : Bool
  is_timeout : Bool
  status : Option Nat
  url : Option String
deriving DecidableEq, Repr

/-- The `Default` instance derived for `MockError` in the source: all flags
false, no status, no URL. -/
def MockError.default : MockError :=
  { is_body := false, is_builder := false, is_connect := false,
    is_decode := false, is_redirect := false, is_request := false,
    is_status := false, is_timeout := false, status := none, url := none }

/-- Model of `MockError::with_url`: add a URL (overwriting any existing). -/
def MockError.with_url (e : MockError) (u : String) : MockError :=
  { e with url := some u }

/-- Model of `MockError::without_url`: strip any related URL. -/
def MockError.without_url (e : MockError) : MockError :=
  { e with url := none }

--	HTTP status classification (http crate, external)

/-- Whether a status code is in the client-error range, as the http crate
defines `StatusCode::is_client_error` (400..=499). -/
def is_client_error (s : Nat) : Bool :=
  decide (400 ≤ s) && decide (s ≤ 499)

/-- Whether a status code is in the server-error range, as the http crate
defines `StatusCode::is_server_error` (500..=599). -/
def is_server_error (s : Nat) : Bool :=
  decide (500 ≤ s) && decide (s ≤ 599)

--	UTF-8 decoding (model of String::from_utf8)

/-- Whether a byte is a UTF-8 continuation byte (0x80..=0xBF). -/
def utf8Cont (b : Nat) : Bool :=
  decide (0x80 ≤ b) && decide (b ≤ 0xBF)

/-- Standard UTF-8 decoding of a byte list into code points, following the
validation rules of Rust `String::from_utf8` (rejecting overlong forms,
surrogates, and code points above 0x10FFFF).  Returns `none` on invalid
input. -/
def utf8DecodeCps : List Nat → Option (List Nat)
  | [] => some []
  | b :: rest =>
    if b ≤ 0x7F then
      (utf8DecodeCps rest).map (fun cs => b :: cs)
    else if 0xC2 ≤ b ∧ b ≤ 0xDF then
      match rest with
      | c :: r2 =>
        if utf8Cont c then
          (utf8DecodeCps r2).map (fun cs => ((b - 0xC0) * 0x40 + (c - 0x80)) :: cs)
        else none
      | [] => none
    else if 0xE0 ≤ b ∧ b ≤ 0xEF then
      match rest with
      | c :: d :: r3 =>
        let lo := if b = 0xE0 then 0xA0 else 0x80
        let hi := if b = 0xED then 0x9F else 0xBF
        if decide (lo ≤ c) && decide (c ≤ hi) && utf8Cont d then
          (utf8DecodeCps r3).map
            (fun cs => ((b - 0xE0) * 0x1000 + (c - 0x80) * 0x40 + (d - 0x80)) :: cs)
        else none
      | _ => none
    else if 0xF0 ≤ b ∧ b ≤ 0xF4 then
      match rest with
      | c :: d :: e :: r4 =>
        let lo := if b = 0xF0 then 0x90 else 0x80
        let hi := if b = 0xF4 then 0x8F else 0xBF
        if decide (lo ≤ c) && decide (c ≤ hi) && utf8Cont d && utf8Cont e then
          (utf8DecodeCps r4).map
            (fun cs =>
              ((b - 0xF0) * 0x40000 + (c - 0x80) * 0x1000
                + (d - 0x80) * 0x40 + (e - 0x80)) :: cs)
        else none
      | _ => none
    else none

/-- UTF-8 decoding of a byte list into a `String` (model of
`String::from_utf8`, which panics-on-`unwrap` when this is `none`). -/
def utf8DecodeStr (bs : List Nat) : Option String :=
  (utf8DecodeCps bs).map (fun cs => String.mk (cs.map Char.ofNat))

deriving instance DecidableEq for Except

--	MockResponse: src/crates/sham/src/reqwest.rs, struct MockResponse

/-- The mocked Reqwest response type: URL, status code, headers, and a body
that is either a byte buffer or a carried `MockError`. -/
structure MockResponse where
  url : String
  status : Nat
  headers : List (String × String)
  body : Except MockError (List Nat)
deriving DecidableEq, Repr

/-- Model of `MockResponse::bytes`: `self.body.clone().map(|b| (*b).clone())`,
i.e. the stored body result itself (the `Arc` clone is ownership only). -/
def MockResponse.bytes (r : MockResponse) : Except MockError (List Nat) :=
  r.body

/-- Model of `MockResponse::bytes_stream`: `stream::once` of the cloned body,
i.e. a one-element stream; a finished stream is modelled as the list of the
elements it yields before terminating. -/
def MockResponse.bytes_stream (r : MockResponse) : List (Except MockError (List Nat)) :=
  [r.body]

/-- Model of `MockResponse::error_for_status`: if the stored status is a
client or server error, build a `MockError` from `..Default::default()` with
`is_status`, the status and the URL set; otherwise return the response. -/
def MockResponse.error_for_status (r : MockResponse) : Except MockError MockResponse :=
  if is_client_error r.status || is_server_error r.status then
    Except.error { MockError.default with
      is_status := true, status := some r.status, url := some r.url }
  else
    Except.ok r

/-- Model of `MockResponse::error_for_status_ref`: same classification as
`error_for_status`, borrowing instead of consuming (identical result values
in the pure model). -/
def MockResponse.error_for_status_ref (r : MockResponse) : Except MockError MockResponse :=
  if is_client_error r.status || is_server_error r.status then
    Except.error { MockError.default with
      is_status := true, status := some r.status, url := some r.url }
  else
    Except.ok r

/-- Model of `MockResponse::json::<T>`: `self.bytes().await.map(|b|
from_json_slice(&b).unwrap())` — the body error passes through; a
deserialisation failure inside the `map` is an `unwrap` panic (`none`).
Parametrised by the serde deserialiser for `T`. -/
def MockResponse.json {T : Type} (fromJson : List Nat → Option T) (r : MockResponse) :
    Option (Except MockError T) :=
  match r.body with
  | Except.error e => some (Except.error e)
  | Except.ok bs =>
    match fromJson bs with
    | some t => some (Except.ok t)
    | none => none

/-- Model of `MockResponse::text`: `self.bytes().await.map(|b|
String::from_utf8(b.to_vec()).unwrap())` — the body error passes through; an
invalid-UTF-8 body is an `unwrap` panic (`none`). -/
def MockResponse.text (r : MockResponse) : Option (Except MockError String) :=
  match r.body with
  | Except.error e => some (Except.error e)
  | Except.ok bs =>
    match utf8DecodeStr bs with
    | some s => some (Except.ok s)
    | none => none

--	Mock client: src/crates/sham/src/reqwest.rs, mock! Client + create_mock_client

/-- A mocked request builder as produced by `create_mock_client`: one
`send` expectation with `times(1)` returning `result`.  `fired` counts the
`send` calls already dispatched. -/
structure MockRequestBuilder where
  result : Except MockError MockResponse
  fired : Nat
deriving DecidableEq, Repr

/-- Model of `MockRequestBuilder::send` under the single `times(1)`
expectation registered by `create_mock_client`: the first call returns the
configured result, a second call finds no unsaturated expectation and is a
mockall panic (`none`). -/
def MockRequestBuilder.send (b : MockRequestBuilder) :
    Option (MockRequestBuilder × Except MockError MockResponse) :=
  if b.fired < 1 then
    some ({ b with fired := b.fired + 1 }, b.result)
  else
    none

/-- Model of the no-op chaining method `MockRequestBuilder::body`. -/
def MockRequestBuilder.body (b : MockRequestBuilder) (_bytes : List Nat) : MockRequestBuilder :=
  b

/-- Model of the no-op chaining method `MockRequestBuilder::headers`. -/
def MockRequestBuilder.headers (b : MockRequestBuilder)
    (_hs : List (String × String)) : MockRequestBuilder :=
  b

/-- A mocked client as produced by `create_mock_client`: the ordered `get`
expectations (normalised URL, result to wire into the returned builder),
each `times(1)` and all in one mockall `Sequence` in list order.  `fired`
counts the expectations already dispatched; as explained in the header,
with this configuration the fired expectations always form a prefix. -/
structure MockClient where
  expectations : List (String × Except MockError MockResponse)
  fired : Nat
deriving DecidableEq, Repr

/-- Model of `MockClient::get` under the expectations registered by
`create_mock_client`.  The matcher of expectation `i` is
`url.as_str() == expected_url.as_str()`: plain string equality between the
incoming URL string and the normalised expected URL.  A call succeeds
exactly when the incoming string equals the URL of the expectation at
index `fired` (otherwise mockall panics: either no unsaturated expectation
matches, or the matching one is out of sequence).  A successful call
returns a fresh builder whose `send` expectation is wired to the paired
result. -/
def MockClient.get (c : MockClient) (u : String) :
    Option (MockClient × MockRequestBuilder) :=
  match c.expectations[c.fired]? with
  | some (eu, r) =>
    if u = eu then
      some ({ c with fired := c.fired + 1 }, { result := r, fired := 0 })
    else
      none
  | none => none

/-- The mockall drop-time verification of a client built by
`create_mock_client`: every `times(1)` expectation must have fired. -/
def MockClient.verified (c : MockClient) : Prop :=
  c.fired = c.expectations.length

instance (c : MockClient) : Decidable c.verified := by
  unfold MockClient.verified
  infer_instance

/-- The loop body of `create_mock_client`: normalise each expected URL with
`mock_url.into_url().unwrap()` (a panic — `none` — on the first unparseable
URL), keeping the paired result. -/
def normalizeExpectations (parse : String → Option String) :
    List (String × Except MockError MockResponse) →
    Option (List (String × Except MockError MockResponse))
  | [] => some []
  | (u, r) :: rest =>
    match parse u with
    | none => none
    | some v =>
      match normalizeExpectations parse rest with
      | none => none
      | some es => some ((v, r) :: es)

/-- Model of `create_mock_client`: normalise the URLs of the expectation
list and build a fresh client with those ordered `get` expectations and
nothing fired yet.  `parse` stands for the url crate parser used by
`into_url`. -/
def create_mock_client (parse : String → Option String)
    (responses : List (String × Except MockError MockResponse)) : Option MockClient :=
  match normalizeExpectations parse responses with
  | none => none
  | some es => some { expectations := es, fired := 0 }

/-- The extra-header loop of `create_mock_response`: each header name is
parsed with `k.into().parse::<HeaderName>().unwrap()` and each value with
`v.into().parse().unwrap()`, panicking (`none`) on the first invalid one.
`parseName` and `parseValue` stand for the http crate parsers for
`HeaderName` and `HeaderValue`. -/
def buildExtraHeaders (parseName parseValue : String → Option String) :
    List (String × String) → Option (List (String × String))
  | [] => some []
  | (k, v) :: rest =>
    match parseName k with
    | none => none
    | some k2 =>
      match parseValue v with
      | none => none
      | some v2 =>
        match buildExtraHeaders parseName parseValue rest with
        | none => none
        | some hs => some ((k2, v2) :: hs)

/-- Model of `create_mock_response`: parse the URL with
`url.into_url().unwrap()` (`none` on an unparseable URL); parse the
content-type value with `ct.into().parse().unwrap()` (`none` when
invalid); format the content length (a formatted usize is always a valid
header value, so that `unwrap` cannot panic); parse the name and value of
every extra header (`none` on the first invalid one); and store the
body. -/
def create_mock_response (parse parseName parseValue : String → Option String)
    (url : String) (status : Nat) (content_type : Option String)
    (content_len : Option Nat) (extra_headers : List (String × String))
    (body : Except MockError (List Nat)) : Option MockResponse :=
  match parse url with
  | none => none
  | some u =>
    match (match content_type with
           | none => some []
           | some ct => (parseValue ct).map (fun v => [("content-type", v)])) with
    | none => none
    | some cth =>
      match buildExtraHeaders parseName parseValue extra_headers with
      | none => none
      | some extras =>
        some { url := u, status := status,
               headers := cth
                 ++ (content_len.map (fun cl => ("content-length", toString cl))).toList
                 ++ extras,
               body := body }

/-- Test-driver for a mocked client: for each URL in the list, call `get`
and then `send` on the returned builder, collecting the results; `none` as
soon as any mockall expectation panics. -/
def runCalls (c : MockClient) :
    List String → Option (MockClient × List (Except MockError MockResponse))
  | [] => some (c, [])
  | u :: us =>
    match c.get u with
    | none => none
    | some (c2, b) =>
      match b.send with
      | none => none
      | some (_, res) =>
        match runCalls c2 us with
        | none => none
        | some (c3, rs) => some (c3, res :: rs)

--	Mock command: src/crates/sham/src/std_process.rs

/-- Model of `MockStdio`, the inert stdio-configuration marker. -/
structure MockStdio where
deriving DecidableEq, Repr

/-- Model of `MockStdio::inherit`, the only constructor. -/
def MockStdio.inherit : MockStdio :=
  {}

/-- Model of `std::io::Error` as used here: only the raw OS error code it
was built from (`IoError::from_raw_os_error`) is observable. -/
structure IoError where
  raw_os_error : Int
deriving DecidableEq, Repr

/-- The calls a `MockCommand` can receive, one per method of the mocked
`Command` trait.  `argsCall` carries the argument list passed to `args`;
`stdin`/`stdout`/`stderr` take only the inert `MockStdio` marker, which has
a single value and is omitted. -/
inductive ProcCall where
  | argsCall : List String → ProcCall
  | stdinCall : ProcCall
  | stdoutCall : ProcCall
  | stderrCall : ProcCall
  | execCall : ProcCall
deriving DecidableEq, Repr

/-- The mocked command as set up by `FakeCommand::new`: five `times(1)`
expectations in one mockall `Sequence` — `args` (whose matcher requires the
list to equal the current process invocation arguments minus the program
name, captured here as `procArgs`), then `stdin`, `stdout`, `stderr`,
`exec`.  `step` counts the expectations already fired (a prefix, as for the
client). -/
structure MockCommand where
  procArgs : List String
  step : Nat
deriving DecidableEq, Repr

/-- Which call the expectation sequence of `FakeCommand::new` accepts at a
given step: step 0 only `args` with exactly the captured argument list,
then `stdin`, `stdout`, `stderr`, `exec` in order.  Any other call is a
mockall panic (saturated, matcher mismatch, or sequence violation). -/
def MockCommand.accept (m : MockCommand) (c : ProcCall) : Bool :=
  match m.step, c with
  | 0, ProcCall.argsCall l => decide (l = m.procArgs)
  | 1, ProcCall.stdinCall => true
  | 2, ProcCall.stdoutCall => true
  | 3, ProcCall.stderrCall => true
  | 4, ProcCall.execCall => true
  | _, _ => false

/-- Dispatch one call on the mocked command: advance the sequence when the
call is accepted, and return the `IoError` produced by the `exec`
expectation (`IoError::from_raw_os_error(0)`) when the call was `exec`. -/
def MockCommand.call (m : MockCommand) (c : ProcCall) :
    Option (MockCommand × Option IoError) :=
  if m.accept c then
    some ({ m with step := m.step + 1 },
          if c = ProcCall.execCall then some { raw_os_error := 0 } else none)
  else
    none

/-- The mockall drop-time verification of the command mock: all five
`times(1)` expectations must have fired. -/
def MockCommand.verified (m : MockCommand) : Prop :=
  m.step = 5

instance (m : MockCommand) : Decidable m.verified := by
  unfold MockCommand.verified
  infer_instance

/-- Model of `FakeCommand`: the wrapper owning the mocked command. -/
structure FakeCommand where
  command : MockCommand
deriving DecidableEq, Repr

/-- Model of `FakeCommand::new`: set up the mocked command with the fixed
five-step expectation sequence and nothing fired.  `procArgs` stands for
`args().skip(1).collect()`, the invocation arguments of the current test
process with the program name skipped, which the source reads from the
environment. -/
def FakeCommand.new (procArgs : List String) : FakeCommand :=
  { command := { procArgs := procArgs, step := 0 } }

/-- Model of `FakeCommand::args`: forward to the mocked `args` and return
self for chaining (`none` models the mockall panic). -/
def FakeCommand.args (f : FakeCommand) (l : List String) : Option FakeCommand :=
  match f.command.call (ProcCall.argsCall l) with
  | some (m, _) => some { command := m }
  | none => none

/-- Model of `FakeCommand::stdin`: forward to the mocked `stdin`. -/
def FakeCommand.stdin (f : FakeCommand) (_cfg : MockStdio) : Option FakeCommand :=
  match f.command.call ProcCall.stdinCall with
  | some (m, _) => some { command := m }
  | none => none

/-- Model of `FakeCommand::stdout`: forward to the mocked `stdout`. -/
def FakeCommand.stdout (f : FakeCommand) (_cfg : MockStdio) : Option FakeCommand :=
  match f.command.call ProcCall.stdoutCall with
  | some (m, _) => some { command := m }
  | none => none

/-- Model of `FakeCommand::stderr`: forward to the mocked `stderr`. -/
def FakeCommand.stderr (f : FakeCommand) (_cfg : MockStdio) : Option FakeCommand :=
  match f.command.call ProcCall.stderrCall with
  | some (m, _) => some { command := m }
  | none => none

/-- Model of `FakeCommand::exec`: forward to the mocked `exec`, yielding
its `IoError`. -/
def FakeCommand.exec (f : FakeCommand) : Option (FakeCommand × IoError) :=
  match f.command.call ProcCall.execCall with
  | some (m, some e) => some ({ command := m }, e)
  | _ => none

/-- Test-driver for the fake command: dispatch a list of calls in order,
collecting every `IoError` returned by `exec` calls; `none` as soon as any
mockall expectation panics. -/
def runProc (f : FakeCommand) : List ProcCall → Option (FakeCommand × List IoError)
  | [] => some (f, [])
  | c :: cs =>
    match f.command.call c with
    | none => none
    | some (m, r) =>
      match runProc { command := m } cs with
      | none => none
      | some (f2, es) => some (f2, r.toList ++ es)

/-- Model of `mock_exit`: a no-op stand-in for `std::process::exit`. -/
def mock_exit (_code : Int) : Unit :=
  ()

--	Sample values and a sample deserialiser (used by concrete witnesses)

/-- A sample deserialiser for a JSON object with the single field `x`
holding a natural number, accumulating ASCII digits. -/
def parseAsciiNat : List Nat → Nat → Option Nat
  | [], acc => some acc
  | b :: rest, acc =>
    if 48 ≤ b ∧ b ≤ 57 then parseAsciiNat rest (acc * 10 + (b - 48)) else none

/-- A concrete instance of the parametrised serde deserialiser: decode the
byte form of a one-field JSON object mapping `x` to a natural number. -/
def parseXField (bs : List Nat) : Option Nat :=
  match bs with
  | 123 :: 34 :: 120 :: 34 :: 58 :: rest =>
    match rest.reverse with
    | 125 :: revDigits =>
      if revDigits = [] then none else parseAsciiNat revDigits.reverse 0
    | _ => none
  | _ => none

/-- The UTF-8 bytes of the JSON text mapping `x` to `1`. -/
def sampleBodyJson : List Nat :=
  [123, 34, 120, 34, 58, 49, 125]

/-- A sample URL in serialised form. -/
def sampleUrl : String :=
  "https://example.com/"

/-- A sample successful response with the JSON body. -/
def sampleOk : MockResponse :=
  { url := sampleUrl, status := 200, headers := [], body := Except.ok sampleBodyJson }

/-- A sample client-error response. -/
def sampleNotFound : MockResponse :=
  { url := sampleUrl, status := 404, headers := [], body := Except.ok sampleBodyJson }

/-- A sample server-error response. -/
def sampleServerErr : MockResponse :=
  { url := sampleUrl, status := 500, headers := [], body := Except.ok sampleBodyJson }

/-- A sample carried error, as a test would configure one. -/
def sampleTimeoutErr : MockError :=
  { MockError.default with is_timeout := true }

/-- A sample response carrying an error body. -/
def sampleErrResp : MockResponse :=
  { url := sampleUrl, status := 200, headers := [], body := Except.error sampleTimeoutErr }

/-- A sample response whose body bytes are not valid UTF-8. -/
def sampleBadUtf8 : MockResponse :=
  { url := sampleUrl, status := 200, headers := [], body := Except.ok [255] }

/-- A URL parser model that accepts every string unchanged (used to
instantiate the parametrised url crate parser in concrete witnesses). -/
def idParse : String → Option String :=
  fun s => some s

--	Helper lemmas

/-- If any entry of the expectation list has an unparseable URL, the
normalisation loop panics. -/
theorem normalizeExpectations_none_of_mem
    {parse : String → Option String}
    {responses : List (String × Except MockError MockResponse)}
    {u : String} {r : Except MockError MockResponse}
    (hm : (u, r) ∈ responses) (hp : parse u = none) :
    normalizeExpectations parse responses = none := by
  induction responses with
  | nil => cases hm
  | cons hd tl ih =>
    obtain ⟨v, s⟩ := hd
    rcases List.mem_cons.mp hm with heq | hm2
    · cases heq
      simp [normalizeExpectations, hp]
    · unfold normalizeExpectations
      cases hpv : parse v with
      | none => rfl
      | some w => rw [ih hm2]

/-- If every entry of the expectation list has a parseable URL, the
normalisation loop succeeds. -/
theorem normalizeExpectations_isSome
    {parse : String → Option String} :
    ∀ {responses : List (String × Except MockError MockResponse)},
    (∀ p ∈ responses, (parse p.fst).isSome) →
    (normalizeExpectations parse responses).isSome := by
  intro responses
  induction responses with
  | nil => intro _; simp [normalizeExpectations]
  | cons hd tl ih =>
    intro hall
    obtain ⟨v, s⟩ := hd
    have hv : (parse v).isSome := hall (v, s) (List.mem_cons_self _ _)
    obtain ⟨w, hw⟩ := Option.isSome_iff_exists.mp hv
    have htl : (normalizeExpectations parse tl).isSome :=
      ih (fun p hp => hall p (List.mem_cons_of_mem _ hp))
    obtain ⟨es, hes⟩ := Option.isSome_iff_exists.mp htl
    simp [normalizeExpectations, hw, hes]

/-- If every extra header has a parseable name and value, the header loop
of `create_mock_response` succeeds. -/
theorem buildExtraHeaders_isSome
    {parseName parseValue : String → Option String} :
    ∀ {hs : List (String × String)},
    (∀ p ∈ hs, (parseName p.fst).isSome ∧ (parseValue p.snd).isSome) →
    (buildExtraHeaders parseName parseValue hs).isSome := by
  intro hs
  induction hs with
  | nil => intro _; simp [buildExtraHeaders]
  | cons hd tl ih =>
    intro hall
    obtain ⟨k, v⟩ := hd
    obtain ⟨k2, hk2⟩ := Option.isSome_iff_exists.mp
      (hall (k, v) (List.mem_cons_self _ _)).1
    obtain ⟨v2, hv2⟩ := Option.isSome_iff_exists.mp
      (hall (k, v) (List.mem_cons_self _ _)).2
    obtain ⟨hs2, hhs2⟩ := Option.isSome_iff_exists.mp
      (ih (fun p hp => hall p (List.mem_cons_of_mem _ hp)))
    simp [buildExtraHeaders, hk2, hv2, hhs2]

/-- If any extra header has an unparseable name or value, the header loop
of `create_mock_response` panics. -/
theorem buildExtraHeaders_none_of_mem
    {parseName parseValue : String → Option String}
    {hs : List (String × String)} {k v : String}
    (hm : (k, v) ∈ hs)
    (hbad : parseName k = none ∨ parseValue v = none) :
    buildExtraHeaders parseName parseValue hs = none := by
  induction hs with
  | nil => cases hm
  | cons hd tl ih =>
    obtain ⟨k0, v0⟩ := hd
    rcases List.mem_cons.mp hm with heq | hm2
    · cases heq
      rcases hbad with h | h
      · simp [buildExtraHeaders, h]
      · unfold buildExtraHeaders
        cases hk : parseName k with
        | none => rfl
        | some k2 => simp [h]
    · unfold buildExtraHeaders
      cases hk : parseName k0 with
      | none => rfl
      | some k2 =>
        cases hv : parseValue v0 with
        | none => rfl
        | some v2 => rw [ih hm2]

/-- Normalisation preserves the paired results and the length. -/
theorem normalizeExpectations_map_snd
    {parse : String → Option String} :
    ∀ {responses es : List (String × Except MockError MockResponse)},
    normalizeExpectations parse responses = some es →
    es.map Prod.snd = responses.map Prod.snd ∧ es.length = responses.length := by
  intro responses
  induction responses with
  | nil =>
    intro es h
    simp [normalizeExpectations] at h
    simp [h.symm]
  | cons hd tl ih =>
    intro es h
    obtain ⟨v, s⟩ := hd
    unfold normalizeExpectations at h
    cases hpv : parse v with
    | none => rw [hpv] at h; cases h
    | some w =>
      rw [hpv] at h
      cases hes : normalizeExpectations parse tl with
      | none => rw [hes] at h; cases h
      | some es2 =>
        rw [hes] at h
        cases h
        have := ih hes
        simp [this.1, this.2]

/-- The URL stored at each index of a normalised expectation list is the
parse of the URL at the same index of the input list, with the same paired
result. -/
theorem normalizeExpectations_fst
    {parse : String → Option String} :
    ∀ {responses es : List (String × Except MockError MockResponse)},
    normalizeExpectations parse responses = some es →
    ∀ (i : Nat) (v : String) (r : Except MockError MockResponse),
    es[i]? = some (v, r) →
    ∃ u, responses[i]? = some (u, r) ∧ parse u = some v := by
  intro responses
  induction responses with
  | nil =>
    intro es h i v r hi
    unfold normalizeExpectations at h
    cases h
    simp at hi
  | cons hd tl ih =>
    intro es h
    obtain ⟨u0, r0⟩ := hd
    unfold normalizeExpectations at h
    cases hpv : parse u0 with
    | none => rw [hpv] at h; cases h
    | some w =>
      rw [hpv] at h
      cases hes : normalizeExpectations parse tl with
      | none => rw [hes] at h; cases h
      | some es2 =>
        rw [hes] at h
        cases h
        intro i v r hi
        cases i with
        | zero =>
          simp only [List.getElem?_cons_zero, Option.some.injEq, Prod.mk.injEq] at hi
          obtain ⟨hv, hr⟩ := hi
          subst hv
          subst hr
          exact ⟨u0, by simp, hpv⟩
        | succ j =>
          simp only [List.getElem?_cons_succ] at hi ⊢
          exact ih hes j v r hi

/-- Running the driver over the URLs of a pending block of expectations,
starting from a state where exactly the expectations before the block have
fired, consumes the block in order and collects its paired results. -/
theorem runCallsBlock
    (taken : List (String × Except MockError MockResponse)) :
    ∀ (pre rest : List (String × Except MockError MockResponse)),
    runCalls { expectations := pre ++ (taken ++ rest), fired := pre.length }
        (taken.map Prod.fst)
      = some ({ expectations := pre ++ (taken ++ rest),
                fired := pre.length + taken.length },
              taken.map Prod.snd) := by
  induction taken with
  | nil => intro pre rest; simp [runCalls]
  | cons hd tl ih =>
    intro pre rest
    obtain ⟨u, r⟩ := hd
    have hget : (pre ++ ((u, r) :: (tl ++ rest)))[pre.length]? = some (u, r) := by
      rw [List.getElem?_append_right (le_refl pre.length)]
      simp
    have step : MockClient.get
        { expectations := pre ++ ((u, r) :: (tl ++ rest)), fired := pre.length } u
        = some ({ expectations := pre ++ ((u, r) :: (tl ++ rest)),
                  fired := pre.length + 1 },
                { result := r, fired := 0 }) := by
      unfold MockClient.get
      simp only [hget]
      simp
    have ih2 := ih (pre ++ [(u, r)]) rest
    rw [List.append_assoc] at ih2
    simp only [List.singleton_append, List.length_append, List.length_cons,
      List.length_nil] at ih2
    have hlen : pre.length + 1 + tl.length = pre.length + (tl.length + 1) := by
      omega
    rw [hlen] at ih2
    simp only [List.cons_append, List.map_cons, List.length_cons, runCalls, step]
    simp only [MockRequestBuilder.send]
    simp only [Nat.zero_lt_one, if_true]
    rw [ih2]

--	Claim theorems

/-- C3: for every response whose stored status is in the client-error or
server-error range, `error_for_status` and `error_for_status_ref` return a
`MockError` with `is_status = true`, the status and URL of the response
attached, and every other flag false; for any other status both return the
original response unchanged. -/
theorem error_for_status_classification (r : MockResponse) :
    ((is_client_error r.status || is_server_error r.status) = true →
      r.error_for_status = Except.error
        { is_body := false, is_builder := false, is_connect := false,
          is_decode := false, is_redirect := false, is_request := false,
          is_status := true, is_timeout := false,
          status := some r.status, url := some r.url } ∧
      r.error_for_status_ref = Except.error
        { is_body := false, is_builder := false, is_connect := false,
          is_decode := false, is_redirect := false, is_request := false,
          is_status := true, is_timeout := false,
          status := some r.status, url := some r.url })
    ∧ ((is_client_error r.status || is_server_error r.status) = false →
      r.error_for_status = Except.ok r ∧
      r.error_for_status_ref = Except.ok r) := by
  constructor
  · intro h
    constructor
    · simp [MockResponse.error_for_status, h, MockError.default]
    · simp [MockResponse.error_for_status_ref, h, MockError.default]
  · intro h
    constructor
    · simp [MockResponse.error_for_status, h]
    · simp [MockResponse.error_for_status_ref, h]

/-- Concrete check of C3 at statuses 404, 500 and 200. -/
theorem error_for_status_classification_witness :
    sampleNotFound.error_for_status = Except.error
      { is_body := false, is_builder := false, is_connect := false,
        is_decode := false, is_redirect := false, is_request := false,
        is_status := true, is_timeout := false,
        status := some 404, url := some sampleUrl }
    ∧ sampleServerErr.error_for_status_ref = Except.error
      { is_body := false, is_builder := false, is_connect := false,
        is_decode := false, is_redirect := false, is_request := false,
        is_status := true, is_timeout := false,
        status := some 500, url := some sampleUrl }
    ∧ sampleOk.error_for_status = Except.ok sampleOk := by
  refine ⟨?_, ?_, ?_⟩
  · exact ((error_for_status_classification sampleNotFound).1 (by decide)).1
  · exact ((error_for_status_classification sampleServerErr).1 (by decide)).2
  · exact ((error_for_status_classification sampleOk).2 (by decide)).1

/-- C4: for a response whose stored body is the byte-buffer variant,
`bytes` returns exactly those bytes, `text` returns their UTF-8 decoding
whenever it exists, and `json` returns the deserialisation of those bytes
into the target type whenever the deserialiser succeeds.  The accessors are
pure functions of the fixed body, so repeated calls agree by definition
(side-effect freedom of the model). -/
theorem response_body_accessors (r : MockResponse) (bs : List Nat)
    (h : r.body = Except.ok bs) :
    r.bytes = Except.ok bs
    ∧ (∀ s, utf8DecodeStr bs = some s → r.text = some (Except.ok s))
    ∧ (∀ (T : Type) (fromJson : List Nat → Option T) (t : T),
        fromJson bs = some t →
        MockResponse.json fromJson r = some (Except.ok t)) := by
  refine ⟨?_, ?_, ?_⟩
  · simp [MockResponse.bytes, h]
  · intro s hs
    simp [MockResponse.text, h, hs]
  · intro T fromJson t ht
    simp [MockResponse.json, h, ht]

/-- Concrete check of C4 on the body bytes of the JSON text mapping `x` to
`1`: `bytes` gives the raw bytes, `text` the decoded string, `json` the
value `1` for the field `x`. -/
theorem response_body_accessors_witness :
    sampleOk.bytes = Except.ok sampleBodyJson
    ∧ sampleOk.text = some (Except.ok "\x7b\"x\":1\x7d")
    ∧ MockResponse.json parseXField sampleOk = some (Except.ok 1) := by
  have h := response_body_accessors sampleOk sampleBodyJson rfl
  exact ⟨h.1, h.2.1 "\x7b\"x\":1\x7d" (by decide),
         h.2.2 Nat parseXField 1 (by decide)⟩

/-- C5: for a response whose stored body bytes are not valid UTF-8, `text`
is a fatal panic (`none` in the model), not a recoverable `MockError`;
likewise `json` is a fatal panic whenever the deserialiser rejects the
body bytes. -/
theorem text_json_fatal_on_invalid_body (r : MockResponse) (bs : List Nat)
    (h : r.body = Except.ok bs) :
    (utf8DecodeStr bs = none → r.text = none)
    ∧ (∀ (T : Type) (fromJson : List Nat → Option T),
        fromJson bs = none → MockResponse.json fromJson r = none) := by
  constructor
  · intro hd
    simp [MockResponse.text, h, hd]
  · intro T fromJson hf
    simp [MockResponse.json, h, hf]

/-- Concrete check of C5 on the invalid UTF-8 body `[255]`. -/
theorem text_json_fatal_on_invalid_body_witness :
    sampleBadUtf8.text = none
    ∧ MockResponse.json parseXField sampleBadUtf8 = none := by
  have h := text_json_fatal_on_invalid_body sampleBadUtf8 [255] rfl
  exact ⟨h.1 (by decide), h.2 Nat parseXField (by decide)⟩

/-- C6: for a response whose stored body is the byte-buffer variant, the
stream from `bytes_stream` yields exactly one element, equal to the full
stored body, and then terminates. -/
theorem bytes_stream_single_element (r : MockResponse) (bs : List Nat)
    (h : r.body = Except.ok bs) :
    r.bytes_stream = [Except.ok bs] ∧ r.bytes_stream.length = 1 := by
  constructor
  · simp [MockResponse.bytes_stream, h]
  · simp [MockResponse.bytes_stream]

/-- Concrete check of C6 on the sample body. -/
theorem bytes_stream_single_element_witness :
    sampleOk.bytes_stream = [Except.ok sampleBodyJson]
    ∧ sampleOk.bytes_stream.length = 1 :=
  bytes_stream_single_element sampleOk sampleBodyJson rfl

/-- C7: `with_url u` followed by `without_url` yields `url = none` whatever
the prior URL state; `with_url u` sets `url = some u`, overwriting any
existing URL; and every field other than `url` (all eight flags and the
status) is unchanged by both operations. -/
theorem with_url_without_url_spec (e : MockError) (u : String) :
    ((e.with_url u).without_url).url = none
    ∧ (e.with_url u).url = some u
    ∧ e.without_url.url = none
    ∧ (e.with_url u).is_body = e.is_body
    ∧ (e.with_url u).is_builder = e.is_builder
    ∧ (e.with_url u).is_connect = e.is_connect
    ∧ (e.with_url u).is_decode = e.is_decode
    ∧ (e.with_url u).is_redirect = e.is_redirect
    ∧ (e.with_url u).is_request = e.is_request
    ∧ (e.with_url u).is_status = e.is_status
    ∧ (e.with_url u).is_timeout = e.is_timeout
    ∧ (e.with_url u).status = e.status
    ∧ e.without_url.is_body = e.is_body
    ∧ e.without_url.is_builder = e.is_builder
    ∧ e.without_url.is_connect = e.is_connect
    ∧ e.without_url.is_decode = e.is_decode
    ∧ e.without_url.is_redirect = e.is_redirect
    ∧ e.without_url.is_request = e.is_request
    ∧ e.without_url.is_status = e.is_status
    ∧ e.without_url.is_timeout = e.is_timeout
    ∧ e.without_url.status = e.status := by
  simp [MockError.with_url, MockError.without_url]

/-- C10: for a response whose stored body is the carried-error variant,
`bytes`, `text` and `json` each return the stored `MockError` unmodified
(as a value, never a panic), and `bytes_stream` yields exactly one element
carrying that error. -/
theorem error_body_passthrough (r : MockResponse) (e : MockError)
    (h : r.body = Except.error e) :
    r.bytes = Except.error e
    ∧ r.text = some (Except.error e)
    ∧ (∀ (T : Type) (fromJson : List Nat → Option T),
        MockResponse.json fromJson r = some (Except.error e))
    ∧ r.bytes_stream = [Except.error e] := by
  refine ⟨?_, ?_, ?_, ?_⟩
  · simp [MockResponse.bytes, h]
  · simp [MockResponse.text, h]
  · intro T fromJson
    simp [MockResponse.json, h]
  · simp [MockResponse.bytes_stream, h]

/-- Concrete check of C10 on a carried timeout error. -/
theorem error_body_passthrough_witness :
    sampleErrResp.bytes = Except.error sampleTimeoutErr
    ∧ sampleErrResp.text = some (Except.error sampleTimeoutErr)
    ∧ MockResponse.json parseXField sampleErrResp
        = some (Except.error sampleTimeoutErr)
    ∧ sampleErrResp.bytes_stream = [Except.error sampleTimeoutErr] := by
  have h := error_body_passthrough sampleErrResp sampleTimeoutErr rfl
  exact ⟨h.1, h.2.1, h.2.2.1 Nat parseXField, h.2.2.2⟩

/-- C8: `FakeCommand::new` pre-registers exactly one expected call each to
`args`, `stdin`, `stdout`, `stderr`, `exec`, bound in that order; the
`args` matcher accepts only the invocation arguments of the test process
(program name skipped, captured as `procArgs`); `exec` resolves to the OS
error with raw code zero.  Driving the wrapper through the five calls in
order passes verification; omitting any one call, or calling `exec` before
`stderr`, fails (a mockall panic at call time, or an unmet expectation at
verification time). -/
theorem fake_command_fixed_sequence (procArgs : List String) :
    (((((FakeCommand.new procArgs).args procArgs).bind
        (fun f => f.stdin MockStdio.inherit)).bind
        (fun f => f.stdout MockStdio.inherit)).bind
        (fun f => f.stderr MockStdio.inherit)).bind
        (fun f => f.exec)
      = some ({ command := { procArgs := procArgs, step := 5 } },
              { raw_os_error := 0 })
    ∧ MockCommand.verified { procArgs := procArgs, step := 5 }
    ∧ (∀ c : ProcCall,
        (FakeCommand.new procArgs).command.accept c = true
          ↔ c = ProcCall.argsCall procArgs)
    ∧ (∀ l : List String,
        l ≠ procArgs → (FakeCommand.new procArgs).args l = none)
    ∧ runProc (FakeCommand.new procArgs)
        [ProcCall.stdinCall, ProcCall.stdoutCall,
         ProcCall.stderrCall, ProcCall.execCall] = none
    ∧ runProc (FakeCommand.new procArgs)
        [ProcCall.argsCall procArgs, ProcCall.stdoutCall,
         ProcCall.stderrCall, ProcCall.execCall] = none
    ∧ runProc (FakeCommand.new procArgs)
        [ProcCall.argsCall procArgs, ProcCall.stdinCall,
         ProcCall.stderrCall, ProcCall.execCall] = none
    ∧ runProc (FakeCommand.new procArgs)
        [ProcCall.argsCall procArgs, ProcCall.stdinCall,
         ProcCall.stdoutCall, ProcCall.execCall] = none
    ∧ (runProc (FakeCommand.new procArgs)
        [ProcCall.argsCall procArgs, ProcCall.stdinCall,
         ProcCall.stdoutCall, ProcCall.stderrCall]
        = some ({ command := { procArgs := procArgs, step := 4 } }, [])
       ∧ ¬ MockCommand.verified { procArgs := procArgs, step := 4 })
    ∧ runProc (FakeCommand.new procArgs)
        [ProcCall.argsCall procArgs, ProcCall.stdinCall,
         ProcCall.stdoutCall, ProcCall.execCall, ProcCall.stderrCall]
        = none := by
  refine ⟨?_, ?_, ?_, ?_, ?_, ?_, ?_, ?_, ⟨?_, ?_⟩, ?_⟩
  · simp [FakeCommand.new, FakeCommand.args, FakeCommand.stdin,
      FakeCommand.stdout, FakeCommand.stderr, FakeCommand.exec,
      MockCommand.call, MockCommand.accept, Option.bind]
  · simp [MockCommand.verified]
  · intro c
    cases c <;> simp [FakeCommand.new, MockCommand.accept]
  · intro l hl
    simp [FakeCommand.new, FakeCommand.args, MockCommand.call,
      MockCommand.accept, hl]
  · simp [runProc, FakeCommand.new, MockCommand.call, MockCommand.accept]
  · simp [runProc, FakeCommand.new, MockCommand.call, MockCommand.accept]
  · simp [runProc, FakeCommand.new, MockCommand.call, MockCommand.accept]
  · simp [runProc, FakeCommand.new, MockCommand.call, MockCommand.accept]
  · simp [runProc, FakeCommand.new, MockCommand.call, MockCommand.accept]
  · simp [MockCommand.verified]
  · simp [runProc, FakeCommand.new, MockCommand.call, MockCommand.accept]

/-- Concrete check of C8 at a two-argument invocation. -/
theorem fake_command_fixed_sequence_witness :
    (((((FakeCommand.new ["run", "now"]).args ["run", "now"]).bind
        (fun f => f.stdin MockStdio.inherit)).bind
        (fun f => f.stdout MockStdio.inherit)).bind
        (fun f => f.stderr MockStdio.inherit)).bind
        (fun f => f.exec)
      = some ({ command := { procArgs := ["run", "now"], step := 5 } },
              { raw_os_error := 0 })
    ∧ (FakeCommand.new ["run", "now"]).args ["other"] = none
    ∧ runProc (FakeCommand.new ["run", "now"])
        [ProcCall.argsCall ["run", "now"], ProcCall.stdinCall,
         ProcCall.stdoutCall, ProcCall.execCall, ProcCall.stderrCall]
        = none := by
  have h := fake_command_fixed_sequence ["run", "now"]
  exact ⟨h.1, h.2.2.2.1 ["other"] (by decide), h.2.2.2.2.2.2.2.2.2⟩

/-- C9: an unparseable URL makes the setup helpers `create_mock_client`
and `create_mock_response` panic at construction time (the `unwrap` on
`into_url`); with a parseable URL, `create_mock_client` always succeeds
and `create_mock_response` succeeds exactly under the remaining setup-time
`unwrap` conditions of its header assembly — the content-type value and
every extra header name and value must parse, and an invalid one panics
the helper even with a valid URL.  The direct call path never parses a
URL: the success of `get` is characterised purely by string equality with
the next registered expectation, for every incoming string, and the
success of `send` purely by its remaining call budget. -/
theorem url_parse_failure_setup_only :
    (∀ (parse : String → Option String)
       (responses : List (String × Except MockError MockResponse))
       (u : String) (r : Except MockError MockResponse),
        (u, r) ∈ responses → parse u = none →
        create_mock_client parse responses = none)
    ∧ (∀ (parse : String → Option String)
         (responses : List (String × Except MockError MockResponse)),
        (∀ p ∈ responses, (parse p.fst).isSome) →
        (create_mock_client parse responses).isSome)
    ∧ (∀ (parse parseName parseValue : String → Option String)
         (url : String) (status : Nat) (ct : Option String) (cl : Option Nat)
         (hs : List (String × String)) (body : Except MockError (List Nat)),
        parse url = none →
        create_mock_response parse parseName parseValue url status ct cl hs
          body = none)
    ∧ (∀ (parse parseName parseValue : String → Option String)
         (url : String) (status : Nat) (ct : Option String) (cl : Option Nat)
         (hs : List (String × String)) (body : Except MockError (List Nat)),
        (parse url).isSome →
        (∀ c, ct = some c → (parseValue c).isSome) →
        (∀ p ∈ hs, (parseName p.fst).isSome ∧ (parseValue p.snd).isSome) →
        (create_mock_response parse parseName parseValue url status ct cl hs
          body).isSome)
    ∧ (∀ (parse parseName parseValue : String → Option String)
         (url : String) (status : Nat) (c : String) (cl : Option Nat)
         (hs : List (String × String)) (body : Except MockError (List Nat)),
        parseValue c = none →
        create_mock_response parse parseName parseValue url status (some c)
          cl hs body = none)
    ∧ (∀ (parse parseName parseValue : String → Option String)
         (url : String) (status : Nat) (ct : Option String) (cl : Option Nat)
         (hs : List (String × String)) (body : Except MockError (List Nat))
         (k v : String),
        (k, v) ∈ hs →
        parseName k = none ∨ parseValue v = none →
        create_mock_response parse parseName parseValue url status ct cl hs
          body = none)
    ∧ (∀ (c : MockClient) (u : String),
        (MockClient.get c u).isSome
          ↔ ∃ r, c.expectations[c.fired]? = some (u, r))
    ∧ (∀ b : MockRequestBuilder, b.send.isSome ↔ b.fired < 1) := by
  refine ⟨?_, ?_, ?_, ?_, ?_, ?_, ?_, ?_⟩
  · intro parse responses u r hm hp
    unfold create_mock_client
    rw [normalizeExpectations_none_of_mem hm hp]
  · intro parse responses hall
    unfold create_mock_client
    obtain ⟨es, hes⟩ :=
      Option.isSome_iff_exists.mp (normalizeExpectations_isSome hall)
    rw [hes]
    rfl
  · intro parse parseName parseValue url status ct cl hs body hp
    unfold create_mock_response
    rw [hp]
  · intro parse parseName parseValue url status ct cl hs body hp hct hhs
    obtain ⟨u, hu⟩ := Option.isSome_iff_exists.mp hp
    obtain ⟨extras, hex⟩ :=
      Option.isSome_iff_exists.mp (buildExtraHeaders_isSome hhs)
    unfold create_mock_response
    rw [hu]
    cases hc : ct with
    | none => simp [hex]
    | some c =>
      obtain ⟨v, hv⟩ := Option.isSome_iff_exists.mp (hct c hc)
      simp [hv, hex]
  · intro parse parseName parseValue url status c cl hs body hbad
    unfold create_mock_response
    cases hu : parse url with
    | none => rfl
    | some u => simp [hbad]
  · intro parse parseName parseValue url status ct cl hs body k v hm hbad
    have hnone := buildExtraHeaders_none_of_mem hm hbad
    unfold create_mock_response
    cases hu : parse url with
    | none => rfl
    | some u =>
      cases hc : ct with
      | none => simp [hnone]
      | some c =>
        cases hv : parseValue c with
        | none => simp [hv]
        | some vv => simp [hnone, hv]
  · intro c u
    unfold MockClient.get
    cases hx : c.expectations[c.fired]? with
    | none => simp
    | some p =>
      obtain ⟨eu, r⟩ := p
      by_cases h : u = eu
      · subst h
        simp
      · simp [h, Ne.symm h]
  · intro b
    unfold MockRequestBuilder.send
    by_cases h : b.fired < 1 <;> simp [h]

/-- Concrete check of C9: an unparseable URL panics both setup helpers; a
parseable URL with parseable headers succeeds; an invalid content-type
value or extra header panics `create_mock_response` despite a valid
URL. -/
theorem url_parse_failure_setup_only_witness :
    create_mock_client (fun _ => none) [("bad url", Except.ok sampleOk)] = none
    ∧ (create_mock_client idParse [(sampleUrl, Except.ok sampleOk)]).isSome
    ∧ create_mock_response (fun _ => none) idParse idParse "bad url" 200
        none none [] (Except.ok []) = none
    ∧ (create_mock_response idParse idParse idParse sampleUrl 200
        (some "application/json") (some 7) [("x-req-id", "1")]
        (Except.ok sampleBodyJson)).isSome
    ∧ create_mock_response idParse idParse (fun _ => none) sampleUrl 200
        (some "bad\nvalue") none [] (Except.ok []) = none
    ∧ create_mock_response idParse (fun _ => none) idParse sampleUrl 200
        none none [("bad name", "v")] (Except.ok []) = none := by
  have h := url_parse_failure_setup_only
  refine ⟨?_, ?_, ?_, ?_, ?_, ?_⟩
  · exact h.1 (fun _ => none) [("bad url", Except.ok sampleOk)] "bad url"
      (Except.ok sampleOk) (by simp) rfl
  · exact h.2.1 idParse [(sampleUrl, Except.ok sampleOk)]
      (by intro p hp; simp [idParse])
  · exact h.2.2.1 (fun _ => none) idParse idParse "bad url" 200 none none []
      (Except.ok []) rfl
  · exact h.2.2.2.1 idParse idParse idParse sampleUrl 200
      (some "application/json") (some 7) [("x-req-id", "1")]
      (Except.ok sampleBodyJson) (by rfl)
      (by intro c hc; simp [idParse])
      (by intro p hp; simp [idParse])
  · exact h.2.2.2.2.1 idParse idParse (fun _ => none) sampleUrl 200
      "bad\nvalue" none [] (Except.ok []) rfl
  · exact h.2.2.2.2.2.1 idParse (fun _ => none) idParse sampleUrl 200
      none none [("bad name", "v")] (Except.ok []) "bad name" "v"
      (by simp) (Or.inl rfl)

/-- C1: for a client built by `create_mock_client` from an expectation list,
calling `get` with the normalised expected URLs in registration order and
`send` on each returned builder yields the paired results in order, with
every expectation fired exactly once: the run ends verified, the URL driven
at position `i` is exactly the parse of the i-th supplied URL (string
equality is the only matching), a further `get` on the exhausted client
panics, and each returned builder answers `send` exactly once. -/
theorem create_mock_client_ordered_run
    (parse : String → Option String)
    (responses : List (String × Except MockError MockResponse))
    (client : MockClient)
    (h : create_mock_client parse responses = some client) :
    runCalls client (client.expectations.map Prod.fst)
      = some ({ expectations := client.expectations,
                fired := client.expectations.length },
              responses.map Prod.snd)
    ∧ client.expectations.length = responses.length
    ∧ client.fired = 0
    ∧ (∀ (i : Nat) (v : String),
        (client.expectations.map Prod.fst)[i]? = some v →
        ∃ u r, responses[i]? = some (u, r) ∧ parse u = some v
             ∧ client.expectations[i]? = some (v, r))
    ∧ MockClient.verified
        { expectations := client.expectations,
          fired := client.expectations.length }
    ∧ (∀ u : String,
        MockClient.get { expectations := client.expectations,
                         fired := client.expectations.length } u = none)
    ∧ (∀ (b b2 : MockRequestBuilder) (res : Except MockError MockResponse),
        b.send = some (b2, res) → b2.send = none) := by
  unfold create_mock_client at h
  cases hn : normalizeExpectations parse responses with
  | none => rw [hn] at h; cases h
  | some es =>
    rw [hn] at h
    cases h
    have hsnd := normalizeExpectations_map_snd hn
    refine ⟨?_, ?_, rfl, ?_, ?_, ?_, ?_⟩
    · have hrun := runCallsBlock es [] []
      simp only [List.nil_append, List.append_nil, Nat.zero_add,
        List.length_nil] at hrun
      rw [hrun, hsnd.1]
    · exact hsnd.2
    · intro i v hi
      rw [List.getElem?_map] at hi
      cases hx : es[i]? with
      | none => rw [hx] at hi; cases hi
      | some p =>
        rw [hx] at hi
        obtain ⟨v2, r⟩ := p
        simp at hi
        obtain ⟨u, hu, hpu⟩ := normalizeExpectations_fst hn i v2 r hx
        subst hi
        exact ⟨u, r, hu, hpu, rfl⟩
    · rfl
    · intro u
      unfold MockClient.get
      have : es[es.length]? = none := by simp
      simp only [this]
    · intro b b2 res hb
      unfold MockRequestBuilder.send at hb ⊢
      by_cases hf : b.fired < 1
      · simp only [hf, if_true] at hb
        obtain ⟨hb2, _⟩ := Prod.mk.injEq .. ▸ Option.some.injEq .. ▸ hb
        have : b2.fired = b.fired + 1 := by
          rw [hb2.symm]
        rw [if_neg]
        omega
      · simp [hf] at hb

/-- Concrete check of C1: a two-entry client driven in order yields the two
configured results and ends verified. -/
theorem create_mock_client_ordered_run_witness :
    runCalls { expectations := [(sampleUrl, Except.ok sampleOk),
                                ("https://example.org/", Except.error sampleTimeoutErr)],
               fired := 0 }
        [sampleUrl, "https://example.org/"]
      = some ({ expectations := [(sampleUrl, Except.ok sampleOk),
                                 ("https://example.org/", Except.error sampleTimeoutErr)],
                fired := 2 },
              [Except.ok sampleOk, Except.error sampleTimeoutErr]) :=
  (create_mock_client_ordered_run idParse
    [(sampleUrl, Except.ok sampleOk),
     ("https://example.org/", Except.error sampleTimeoutErr)]
    { expectations := [(sampleUrl, Except.ok sampleOk),
                       ("https://example.org/", Except.error sampleTimeoutErr)],
      fired := 0 }
    rfl).1

/-- C2: a `get` whose URL differs from the next registered expectation, or
issued after all expectations are exhausted, is a mockall panic; running
only the first `k` of the registered calls succeeds at call time, but the
resulting state passes drop-time verification exactly when `k` equals the
number of registered entries — fewer calls leave an unmet expectation and a
well-ordered complete run never fails. -/
theorem mock_client_expectation_failures :
    (∀ (c : MockClient) (u eu : String) (r : Except MockError MockResponse),
        c.expectations[c.fired]? = some (eu, r) → u ≠ eu →
        MockClient.get c u = none)
    ∧ (∀ (c : MockClient) (u : String),
        c.expectations.length ≤ c.fired → MockClient.get c u = none)
    ∧ (∀ (parse : String → Option String)
         (responses : List (String × Except MockError MockResponse))
         (client : MockClient) (k : Nat),
        create_mock_client parse responses = some client →
        k ≤ client.expectations.length →
        runCalls client ((client.expectations.map Prod.fst).take k)
          = some ({ expectations := client.expectations, fired := k },
                  (client.expectations.map Prod.snd).take k)
        ∧ (MockClient.verified { expectations := client.expectations, fired := k }
            ↔ k = client.expectations.length)) := by
  refine ⟨?_, ?_, ?_⟩
  · intro c u eu r hx hne
    unfold MockClient.get
    simp [hx, hne]
  · intro c u hlen
    unfold MockClient.get
    have : c.expectations[c.fired]? = none := by
      simp [hlen]
    simp [this]
  · intro parse responses client k h hk
    unfold create_mock_client at h
    cases hn : normalizeExpectations parse responses with
    | none => rw [hn] at h; cases h
    | some es =>
      rw [hn] at h
      cases h
      simp only at hk
      constructor
      · have hrun := runCallsBlock (es.take k) [] (es.drop k)
        simp only [List.nil_append, List.take_append_drop, Nat.zero_add,
          List.length_nil, List.length_take] at hrun
        have hmin : min k es.length = k := Nat.min_eq_left hk
        rw [hmin] at hrun
        have hfst : (es.map Prod.fst).take k = (es.take k).map Prod.fst :=
          (List.map_take ..).symm
        have hsnd : (es.map Prod.snd).take k = (es.take k).map Prod.snd :=
          (List.map_take ..).symm
        rw [hfst, hsnd, hrun]
      · exact Iff.rfl

/-- Concrete check of C2: a wrong-URL call and an extra call both panic;
driving one of two registered calls succeeds but leaves verification
failing. -/
theorem mock_client_expectation_failures_witness :
    MockClient.get { expectations := [(sampleUrl, Except.ok sampleOk)],
                     fired := 0 } "https://example.org/" = none
    ∧ MockClient.get { expectations := [(sampleUrl, Except.ok sampleOk)],
                       fired := 1 } sampleUrl = none
    ∧ runCalls { expectations := [(sampleUrl, Except.ok sampleOk),
                                  ("https://example.org/", Except.ok sampleOk)],
                 fired := 0 } [sampleUrl]
        = some ({ expectations := [(sampleUrl, Except.ok sampleOk),
                                   ("https://example.org/", Except.ok sampleOk)],
                  fired := 1 },
                [Except.ok sampleOk])
    ∧ ¬ MockClient.verified
        { expectations := [(sampleUrl, Except.ok sampleOk),
                           ("https://example.org/", Except.ok sampleOk)],
          fired := 1 } := by
  have h := mock_client_expectation_failures
  have h3 := h.2.2 idParse
    [(sampleUrl, Except.ok sampleOk), ("https://example.org/", Except.ok sampleOk)]
    { expectations := [(sampleUrl, Except.ok sampleOk),
                       ("https://example.org/", Except.ok sampleOk)],
      fired := 0 }
    1 rfl (by decide)
  refine ⟨?_, ?_, h3.1, fun hv => absurd (h3.2.mp hv) (by decide)⟩
  · exact h.1 _ "https://example.org/" sampleUrl (Except.ok sampleOk) rfl
      (by decide)
  · exact h.2.1 _ sampleUrl (by decide)
